import Mathlib

/-!
Shallow embedding of the document-processing core of the `scheduling`
repository (backend/app): the persisted document registry
(`database.py`), the in-memory progress tracker (`progress_manager.py`),
the OCR job runner (`ocr_service.py`) and the parsing endpoints
(`api/parsing.py`, `api/documents.py`).

Conventions of the embedding:
* timestamps (`datetime.now()`) are abstracted as a `Nat` clock value
  passed explicitly to every mutating operation;
* the pandas DataFrame keyed by document id is an association list
  `List (String × DocRecord)`;
* durable pickle storage is a `Disk` holding an optional primary and
  backup snapshot, where a snapshot is either readable data or corrupt;
* Python dictionaries with optional keys are structures of `Option`
  fields (an absent key and a key that was deleted are both `none`);
* the filesystem is a set of existing file/directory paths plus the set
  of paths whose removal raises an OSError;
* background dispatch (FastAPI `BackgroundTasks.add_task`, daemon
  `threading.Thread.start`) appends the document id to a pending-jobs
  list: the dispatched work is *not* executed as part of the call.
-/

namespace Scheduling

/-! ## Document registry (`backend/app/database.py`) -/

/-- One row of the registry DataFrame (schema `df_columns` of
`DocumentDatabase.__init__`). -/
structure DocRecord where
  original_filename : String
  upload_date : Nat
  status : String
  upload_path : String
  output_folder : String
  raw_copy_path : String
  html_path : String
  extracted_info_path : String
  metadata_path : String
  extracted_info : Option String
  error_message : Option String
  last_modified : Nat
deriving Repr, DecidableEq

/-- A durable snapshot on disk: a readable pickle of the records, or an
unreadable/corrupt file (unpickling raises). -/
inductive Snapshot where
  | ok (records : List (String × DocRecord))
  | corrupt
deriving Repr, DecidableEq

/-- The durable store: the primary pickle file and the backup pickle
file, each possibly absent. -/
structure Disk where
  primary : Option Snapshot
  backup : Option Snapshot
deriving Repr, DecidableEq

/-- In-memory `DocumentDatabase` state: the DataFrame plus the durable
store it writes through to. -/
structure DocumentDatabase where
  df : List (String × DocRecord)
  disk : Disk
deriving Repr, DecidableEq

/-- Embeds `DocumentDatabase._save_database`: if the primary pickle exists it is
renamed over the backup, then the current DataFrame is written as the new
primary. -/
def save_database (d : DocumentDatabase) : DocumentDatabase :=
  let backup' :=
    match d.disk.primary with
    | some s => some s
    | none => d.disk.backup
  { d with disk := { primary := some (.ok d.df), backup := backup' } }

/-- Embeds `DocumentDatabase._load_database`: load the primary pickle; if it is
unreadable fall back to the backup; if the backup is unreadable or both
are absent, start from an empty DataFrame. -/
def load_database (disk : Disk) : List (String × DocRecord) :=
  match disk.primary with
  | some (.ok r) => r
  | some .corrupt =>
    match disk.backup with
    | some (.ok r) => r
    | _ => []
  | none => []

/-- Embeds `DocumentDatabase.get_document`. -/
def get_document (d : DocumentDatabase) (doc_id : String) : Option DocRecord :=
  d.df.lookup doc_id

/-- Apply `f` to the row keyed `doc_id` (the `self.df.loc[doc_id, col] = v`
updates). -/
def dfSet (df : List (String × DocRecord)) (doc_id : String)
    (f : DocRecord → DocRecord) : List (String × DocRecord) :=
  df.map fun p => if p.1 = doc_id then (p.1, f p.2) else p

/-- The field assignments `update_document_status` performs on the row:
set `status`, refresh `last_modified`, and store `error_message` only
when it is truthy (non-`None`, non-empty — Python `if error_message:`). -/
def statusUpdateRow (now : Nat) (status : String) (error_message : Option String)
    (r : DocRecord) : DocRecord :=
  { r with
    status := status
    last_modified := now
    error_message :=
      match error_message with
      | some m => if m.isEmpty then r.error_message else some m
      | none => r.error_message }

/-- Embeds `DocumentDatabase.update_document_status`: when the id is present,
apply `statusUpdateRow` to its row and write through; otherwise do
nothing. -/
def update_document_status (d : DocumentDatabase) (now : Nat)
    (doc_id status : String) (error_message : Option String) : DocumentDatabase :=
  if (d.df.lookup doc_id).isSome then
    save_database
      { d with df := dfSet d.df doc_id (statusUpdateRow now status error_message) }
  else d

/-- The field assignments `update_extracted_info` performs on the row. -/
def infoUpdateRow (now : Nat) (extracted_info : String) (r : DocRecord) :
    DocRecord :=
  { r with extracted_info := some extracted_info, last_modified := now }

/-- Embeds `DocumentDatabase.update_extracted_info`: when the id is present, set
`extracted_info`, refresh `last_modified`, and write through. -/
def update_extracted_info (d : DocumentDatabase) (now : Nat)
    (doc_id : String) (extracted_info : String) : DocumentDatabase :=
  if (d.df.lookup doc_id).isSome then
    save_database
      { d with df := dfSet d.df doc_id (infoUpdateRow now extracted_info) }
  else d

/-- Embeds `DocumentDatabase.delete_document`: drop the row and write through,
returning `true`; return `false` when the id is unknown. -/
def delete_document (d : DocumentDatabase) (doc_id : String) :
    DocumentDatabase × Bool :=
  if (d.df.lookup doc_id).isSome then
    (save_database { d with df := d.df.filter fun p => p.1 != doc_id }, true)
  else (d, false)

/-! ## Progress tracker (`backend/app/services/progress_manager.py`) -/

/-- One entry of `ProgressManager.progress_data`: a Python dict whose
keys are filled in by `update_progress` / `set_status`; a key never
written (or deleted) is `none`. -/
structure ProgressEntry where
  task : Option String
  percentage : Option Nat
  progress_info : Option String
  last_updated : Option Nat
  status : Option String
  error_message : Option String
deriving Repr, DecidableEq

/-- The empty dict a fresh entry starts from. -/
def emptyEntry : ProgressEntry :=
  ⟨none, none, none, none, none, none⟩

/-- The tracker's in-memory map, keyed by document id. -/
abbrev ProgressManager := List (String × ProgressEntry)

/-- A freshly constructed `ProgressManager` (`self.progress_data = {}`):
the state after a process restart. -/
def emptyPM : ProgressManager := []

/-- Lookup in `progress_data`. -/
def pmFind (pm : ProgressManager) (doc_id : String) : Option ProgressEntry :=
  List.lookup doc_id pm

/-- Store an entry under `doc_id` (replace if present, else insert). -/
def pmSet (pm : ProgressManager) (doc_id : String) (e : ProgressEntry) :
    ProgressManager :=
  if (List.lookup doc_id pm).isSome then
    List.map (fun p => if p.1 = doc_id then (p.1, e) else p) pm
  else (doc_id, e) :: pm

/-- Embeds `ProgressManager.update_progress`: create the entry if missing, then
`dict.update` with `task`, `percentage`, `progress_info`, `last_updated`
and `status = 'processing'`; the `error_message` key is untouched. -/
def update_progress (pm : ProgressManager) (now : Nat) (doc_id task : String)
    (percentage : Nat) (progress_info : Option String) : ProgressManager :=
  let e := (pmFind pm doc_id).getD emptyEntry
  pmSet pm doc_id
    { e with
      task := some task
      percentage := some percentage
      progress_info := progress_info
      last_updated := some now
      status := some "processing" }

/-- Embeds `ProgressManager.set_status`: create the entry if missing, update
`status` and `last_updated`; store `error_message` when truthy, else
delete the key. -/
def set_status (pm : ProgressManager) (now : Nat) (doc_id status : String)
    (error_message : Option String) : ProgressManager :=
  let e := (pmFind pm doc_id).getD emptyEntry
  let em :=
    match error_message with
    | some m => if m.isEmpty then none else some m
    | none => none
  pmSet pm doc_id { e with status := some status, last_updated := some now, error_message := em }

/-- Embeds `ProgressManager.get_progress`. -/
def get_progress (pm : ProgressManager) (doc_id : String) : Option ProgressEntry :=
  pmFind pm doc_id

/-! ## Progress line patterns (`ProgressCapture` in
`backend/app/services/ocr_service.py`)

The three regexes of `ProgressCapture.progress_patterns`, applied with
`re.match` (anchored at the start, no anchor at the end):

1. `^(.+?):\s*(\d+)%\|[^|]*\|\s*(\d+/\d+)\s*\[.+\]`
2. `^(.+?):\s*(\d+)%.*?(\d+/\d+)`
3. `^(.+?):\s*(\d+)%`

Each is embedded as an executable matcher on `List Char` that follows
the Python engine's backtracking order: the lazy group `(.+?)` tries the
shortest prefix first (a colon where the rest of the pattern fails is
absorbed into the group and the next colon is tried); `.` and `.+?`/`.+`
never match a newline; `\s*`, `\d+` and `[^|]*` are greedy, and in these
patterns their greedy match is the only possible one because the
following literal can never occur inside the repeated class. -/

/-- Python `\s` (the whitespace characters relevant to ASCII progress
lines). -/
def isPySpace (c : Char) : Bool :=
  c = ' ' || c = '\t' || c = '\n' || c = '\x0b' || c = '\x0c' || c = '\r'

/-- Python `str.strip()`. -/
def pyStrip (s : List Char) : List Char :=
  ((s.dropWhile isPySpace).reverse.dropWhile isPySpace).reverse

/-- Split off the maximal leading run of `\d` characters. -/
def takeDigits : List Char → List Char × List Char
  | [] => ([], [])
  | c :: r =>
    if c.isDigit then
      let (ds, rest) := takeDigits r
      (c :: ds, rest)
    else ([], c :: r)

/-- Python `int` on a digit string. -/
def digitsToNat (ds : List Char) : Nat :=
  ds.foldl (fun a c => 10 * a + (c.toNat - 48)) 0

/-- Match `\d+/\d+` at the head of `s`; return the captured text and the
remainder after the (greedy) match. -/
def fracAt (s : List Char) : Option (List Char × List Char) :=
  let (ds1, r1) := takeDigits s
  if ds1.isEmpty then none
  else
    match r1 with
    | '/' :: r2 =>
      let (ds2, r3) := takeDigits r2
      if ds2.isEmpty then none else some (ds1 ++ '/' :: ds2, r3)
    | _ => none

/-- Match `.*?(\d+/\d+)`: lazy scan for the earliest start of a
`\d+/\d+` match, with the skipped characters required non-newline. -/
def findFrac : List Char → Option (List Char)
  | [] => none
  | c :: r =>
    match fracAt (c :: r) with
    | some (g, _) => some g
    | none => if c = '\n' then none else findFrac r

/-- Match `.+\]` somewhere at the head: at least one non-newline
character followed (after further non-newline characters) by `]`. -/
def scanClose : List Char → Bool
  | [] => false
  | c :: rest => c = ']' || (c != '\n' && scanClose rest)

/-- Pattern piece `.+\]` : first a mandatory non-newline character, then `scanClose`. -/
def closeAfterOne : List Char → Bool
  | [] => false
  | c :: rest => c != '\n' && scanClose rest

/-- Tail of pattern 3 after the colon: `\s*(\d+)%`; returns the
percentage digits. -/
def tailP3 (s : List Char) : Option (List Char) :=
  let r1 := s.dropWhile isPySpace
  let (ds, r2) := takeDigits r1
  if ds.isEmpty then none
  else
    match r2 with
    | '%' :: _ => some ds
    | _ => none

/-- Tail of pattern 2 after the colon: `\s*(\d+)%.*?(\d+/\d+)`; returns
the percentage digits and the captured ratio text. -/
def tailP2 (s : List Char) : Option (List Char × List Char) :=
  let r1 := s.dropWhile isPySpace
  let (ds, r2) := takeDigits r1
  if ds.isEmpty then none
  else
    match r2 with
    | '%' :: r3 =>
      match findFrac r3 with
      | some g => some (ds, g)
      | none => none
    | _ => none

/-- Tail of pattern 1 after the colon:
`\s*(\d+)%\|[^|]*\|\s*(\d+/\d+)\s*\[.+\]`; returns the percentage digits
and the captured ratio text. -/
def tailP1 (s : List Char) : Option (List Char × List Char) :=
  let r1 := s.dropWhile isPySpace
  let (ds, r2) := takeDigits r1
  if ds.isEmpty then none
  else
    match r2 with
    | '%' :: '|' :: r3 =>
      match r3.dropWhile (fun c => c != '|') with
      | '|' :: r5 =>
        let r6 := r5.dropWhile isPySpace
        match fracAt r6 with
        | some (g, r7) =>
          match r7.dropWhile isPySpace with
          | '[' :: r9 => if closeAfterOne r9 then some (ds, g) else none
          | _ => none
        | none => none
      | _ => none
    | _ => none

/-- The `^(.+?):` part shared by all three patterns, with lazy
backtracking: try each colon position in order of increasing group-1
length; on tail failure the colon joins the group and the scan
continues. Group 1 must be non-empty and newline-free. -/
def scanColon {G : Type} (tail : List Char → Option G) :
    List Char → List Char → Option (List Char × G)
  | _, [] => none
  | acc, c :: rest =>
    if c = ':' && !acc.isEmpty then
      match tail rest with
      | some g => some (acc.reverse, g)
      | none => scanColon tail (c :: acc) rest
    else if c = '\n' then none
    else scanColon tail (c :: acc) rest

/-- Result of `re.match` of pattern 1 on a line: the captured
`(group1, (group2 digits, group3 text))`. -/
def matchP1 (s : List Char) : Option (List Char × (List Char × List Char)) :=
  scanColon tailP1 [] s

/-- Result of `re.match` of pattern 2 on a line. -/
def matchP2 (s : List Char) : Option (List Char × (List Char × List Char)) :=
  scanColon tailP2 [] s

/-- Result of `re.match` of pattern 3 on a line: `(group1, group2 digits)`. -/
def matchP3 (s : List Char) : Option (List Char × List Char) :=
  scanColon tailP3 [] s

/-- The dict returned by `ProgressCapture.parse_progress_line` on a
match. -/
structure ParsedProgress where
  task : String
  percentage : Nat
  progress : Option String
deriving Repr, DecidableEq

/-- Shared tail of a successful match in `parse_progress_line`: strip
group 1 into the task name, convert group 2 to an int, take group 3 (if
the pattern has one) as the progress info, push the update into the
tracker and return the result dict. -/
def emitProgress (pm : ProgressManager) (now : Nat) (doc_id : String)
    (g1 ds : List Char) (info : Option (List Char)) :
    ProgressManager × Option ParsedProgress :=
  let task := String.mk (pyStrip g1)
  let pct := digitsToNat ds
  let infoS := info.map String.mk
  (update_progress pm now doc_id task pct infoS, some ⟨task, pct, infoS⟩)

/-- Embeds `ProgressCapture.parse_progress_line`: strip the line, return `none`
when empty, otherwise try patterns 1, 2, 3 in that order and use the
first that matches, updating the tracker with the captured groups
(`progress_info` is `none` exactly when the 2-group minimal pattern was
the one that matched). -/
def parse_progress_line (pm : ProgressManager) (now : Nat) (doc_id : String)
    (line : String) : ProgressManager × Option ParsedProgress :=
  let l := pyStrip line.toList
  if l.isEmpty then (pm, none)
  else
    match matchP1 l with
    | some (g1, ds, g3) => emitProgress pm now doc_id g1 ds (some g3)
    | none =>
      match matchP2 l with
      | some (g1, ds, g3) => emitProgress pm now doc_id g1 ds (some g3)
      | none =>
        match matchP3 l with
        | some (g1, ds) => emitProgress pm now doc_id g1 ds none
        | none => (pm, none)

/-! ## Filesystem and application state -/

/-- The filesystem as seen by the endpoints: which paths exist (as files
or directories), and which paths make `unlink`/`rmtree` raise. -/
structure FS where
  files : List String
  dirs : List String
  failing : List String
deriving Repr, DecidableEq

/-- Python `Path(p).exists()`. -/
def fsExists (fs : FS) (p : String) : Bool :=
  fs.files.contains p || fs.dirs.contains p

/-- Python `shutil.copy2(src, dst)`: afterwards `dst` exists as a file. -/
def fsCopy (fs : FS) (dst : String) : FS :=
  { fs with files := dst :: fs.files }

/-- Remove a path from the filesystem (`unlink` / `rmtree`). -/
def fsRemove (fs : FS) (p : String) : FS :=
  { fs with
    files := fs.files.filter (· != p)
    dirs := fs.dirs.filter (· != p) }

/-- Whole application state threaded through the endpoints: the registry
singleton, the tracker singleton, the filesystem, and the list of
dispatched-but-not-yet-run background work items (FastAPI background
tasks / daemon OCR threads), by document id in dispatch order. -/
structure AppState where
  db : DocumentDatabase
  pm : ProgressManager
  fs : FS
  jobs : List String
deriving Repr, DecidableEq

/-! ## Job runner (`backend/app/services/ocr_service.py`) -/

/-- Embeds `process_pdf_to_markdown` (the threaded variant used by both parse
paths): set tracker status to `processing`, start a daemon thread running
`run_ocr_thread`, and return immediately — the thread's work is only
*dispatched* here, recorded as a pending job. -/
def process_pdf_to_markdown (st : AppState) (now : Nat) (doc_id : String) :
    AppState :=
  { st with
    pm := set_status st.pm now doc_id "processing" none
    jobs := st.jobs ++ [doc_id] }

/-- Body of `run_ocr_thread` inside `process_pdf_to_markdown`, for a job
that has a `doc_id` and a `database` (as both parse paths supply). The
converter invocation is abstracted as `conv : Except String String`
(rendered text, or the exception's message); writing the output file may
itself raise (`writeErr`). Both failure shapes land in the same `except`
clause, which sets tracker and registry to `error` with the message
`"OCR processing failed: " ++ e`. -/
def run_ocr_thread (db : DocumentDatabase) (pm : ProgressManager) (now : Nat)
    (doc_id : String) (conv : Except String String) (writeErr : Option String) :
    DocumentDatabase × ProgressManager :=
  match conv with
  | .error e =>
    let msg := "OCR processing failed: " ++ e
    (update_document_status db now doc_id "error" (some msg),
     set_status pm now doc_id "error" (some msg))
  | .ok _text =>
    match writeErr with
    | some e =>
      let msg := "OCR processing failed: " ++ e
      (update_document_status db now doc_id "error" (some msg),
       set_status pm now doc_id "error" (some msg))
    | none =>
      (update_document_status db now doc_id "parsed" none,
       set_status pm now doc_id "completed" none)

/-! ## Parsing endpoints (`backend/app/api/parsing.py`) -/

/-- The possible HTTP outcomes of `POST /api/parsing/parse/{doc_id}`. -/
inductive ParseResponse where
  | notFound
  | alreadyInProgress (doc_id : String)
  | alreadyParsed (doc_id : String)
  | started (doc_id : String)
  | sourceNotFound
deriving Repr, DecidableEq

/-- Embeds `parse_document` (the single-document endpoint): reject unknown ids
with 404; return 202 "already being parsed" when the status is
`parsing` and 200 "already parsed" when it is `parsed`, both without any
state change; otherwise mark the record `parsing`, ensure the raw copy
exists (copying from the upload path, or failing with a 500 and an
`error` record when the source is gone), and dispatch
`background_parse_document` as a background task. -/
def parse_document (st : AppState) (now : Nat) (doc_id : String) :
    AppState × ParseResponse :=
  match get_document st.db doc_id with
  | none => (st, .notFound)
  | some doc =>
    if doc.status = "parsing" then (st, .alreadyInProgress doc_id)
    else if doc.status = "parsed" then (st, .alreadyParsed doc_id)
    else
      let db1 := update_document_status st.db now doc_id "parsing" none
      if fsExists st.fs doc.raw_copy_path then
        ({ st with db := db1, jobs := st.jobs ++ [doc_id] }, .started doc_id)
      else if fsExists st.fs doc.upload_path then
        ({ st with
            db := db1
            fs := fsCopy st.fs doc.raw_copy_path
            jobs := st.jobs ++ [doc_id] }, .started doc_id)
      else
        let db2 := update_document_status db1 now doc_id "error"
          (some "Source file not found")
        ({ st with db := db2 }, .sourceNotFound)

/-- The partitioned `results` dict built by `parse_multiple_documents`
(`processed` keeps the per-item `status` value the code stores, `failed`
keeps the per-item error string). -/
structure BatchResults where
  total_requested : Nat
  processed : List (String × String)
  already_parsed : List String
  failed : List (String × String)
  not_found : List String
deriving Repr, DecidableEq

/-- The `results["summary"]` dict. `success_rate` is kept as the exact
rational `(total_processed / total_requested) * 100`; the code's
`round(-, 2)` float presentation is not modelled. -/
structure BatchSummary where
  total_processed : Nat
  success_rate : ℚ
deriving Repr, DecidableEq

/-- One iteration of the `for doc_id in doc_ids` loop in
`parse_multiple_documents`: unknown ids go to `not_found`; `parsed`
documents go to `already_parsed`; `parsing` documents are skipped with a
bare `continue`, touching neither the state nor any partition; otherwise
the record is marked `parsing`, the raw copy is ensured (a missing
source records `error` and goes to `failed`), and the threaded
`process_pdf_to_markdown` is invoked — it dispatches the OCR thread and
returns at once, so the loop records `(doc_id, "parsed")` under
`processed` without waiting for any conversion. -/
def batchStep (now : Nat) (st : AppState) (res : BatchResults)
    (doc_id : String) : AppState × BatchResults :=
  match get_document st.db doc_id with
  | none => (st, { res with not_found := res.not_found ++ [doc_id] })
  | some doc =>
    if doc.status = "parsed" then
      (st, { res with already_parsed := res.already_parsed ++ [doc_id] })
    else if doc.status = "parsing" then (st, res)
    else
      let st1 := { st with db := update_document_status st.db now doc_id "parsing" none }
      if fsExists st1.fs doc.raw_copy_path then
        (process_pdf_to_markdown st1 now doc_id,
         { res with processed := res.processed ++ [(doc_id, "parsed")] })
      else if fsExists st1.fs doc.upload_path then
        let st2 := { st1 with fs := fsCopy st1.fs doc.raw_copy_path }
        (process_pdf_to_markdown st2 now doc_id,
         { res with processed := res.processed ++ [(doc_id, "parsed")] })
      else
        let st2 := { st1 with
          db := update_document_status st1.db now doc_id "error"
            (some "Source file not found") }
        (st2, { res with failed := res.failed ++ [(doc_id, "Source file not found")] })

/-- The batch loop over `doc_ids`. -/
def batchLoop (now : Nat) : AppState → BatchResults → List String →
    AppState × BatchResults
  | st, res, [] => (st, res)
  | st, res, d :: rest =>
    batchLoop now (batchStep now st res d).1 (batchStep now st res d).2 rest

/-- Embeds `parse_multiple_documents` (`POST /api/parsing/parse-batch`): run the
loop over all requested ids, then compute the summary with
`total_processed = len(processed) + len(already_parsed)` and
`success_rate = (total_processed / len(doc_ids)) * 100` (0 when the
request is empty). -/
def parse_multiple_documents (st : AppState) (now : Nat)
    (doc_ids : List String) : AppState × BatchResults × BatchSummary :=
  let res0 : BatchResults :=
    { total_requested := doc_ids.length
      processed := []
      already_parsed := []
      failed := []
      not_found := [] }
  let res := (batchLoop now st res0 doc_ids).2
  let tp := res.processed.length + res.already_parsed.length
  let rate : ℚ :=
    if doc_ids.isEmpty then 0 else ((tp : ℚ) / (doc_ids.length : ℚ)) * 100
  ((batchLoop now st res0 doc_ids).1, res,
   { total_processed := tp, success_rate := rate })

/-! ## Delete endpoint (`backend/app/api/documents.py`) -/

/-- The possible HTTP outcomes of `DELETE /api/documents/{doc_id}`. -/
inductive DeleteResponse where
  | deleted (doc_id : String)
  | notFound
  | serverError
deriving Repr, DecidableEq

/-- The `for file_path in files_to_delete` loop of `delete_document` in
`documents.py`: skip paths that do not exist, remove the rest; a raising
removal aborts the loop with the exception (returning the filesystem as
mutated so far, and `false`). -/
def deleteFilesLoop : FS → List String → FS × Bool
  | fs, [] => (fs, true)
  | fs, p :: rest =>
    if fsExists fs p then
      if fs.failing.contains p then (fs, false)
      else deleteFilesLoop (fsRemove fs p) rest
    else deleteFilesLoop fs rest

/-- The `delete_document` endpoint: 404 on unknown id; otherwise delete
`upload_path` and `output_folder` from disk — an exception there
propagates to the outer handler as a 500 *without* touching the registry
— and only then drop the registry row. -/
def delete_document_endpoint (st : AppState) (doc_id : String) :
    AppState × DeleteResponse :=
  match get_document st.db doc_id with
  | none => (st, .notFound)
  | some doc =>
    let (fs', ok) := deleteFilesLoop st.fs [doc.upload_path, doc.output_folder]
    if ok then
      match delete_document st.db doc_id with
      | (db', true) => ({ st with db := db', fs := fs' }, .deleted doc_id)
      | (_, false) => ({ st with fs := fs' }, .serverError)
    else ({ st with fs := fs' }, .serverError)

/-! ## Helper lemmas shared by the claim theorems -/

theorem lookup_map_update {β : Type} (l : List (String × β)) (k : String)
    (f : β → β) :
    List.lookup k (l.map fun p => if p.1 = k then (p.1, f p.2) else p)
      = (List.lookup k l).map f := by
  induction l with
  | nil => rfl
  | cons p rest ih =>
    obtain ⟨k', v⟩ := p
    simp only [List.map_cons]
    by_cases hk : k' = k
    · subst hk
      rw [if_pos rfl]
      simp only [List.lookup, beq_self_eq_true]
      rfl
    · rw [if_neg hk]
      have hbeq : (k == k') = false := by
        simp only [beq_eq_false_iff_ne, ne_eq]
        exact fun h => hk h.symm
      simp only [List.lookup, hbeq, ih]

theorem lookup_map_update_ne {β : Type} (l : List (String × β)) (k k' : String)
    (f : β → β) (h : k' ≠ k) :
    List.lookup k' (l.map fun p => if p.1 = k then (p.1, f p.2) else p)
      = List.lookup k' l := by
  induction l with
  | nil => rfl
  | cons p rest ih =>
    obtain ⟨k0, v⟩ := p
    simp only [List.map_cons]
    by_cases hk : k0 = k
    · subst hk
      rw [if_pos rfl]
      have hbeq : (k' == k0) = false := by
        simp only [beq_eq_false_iff_ne, ne_eq]
        exact h
      simp only [List.lookup, hbeq, ih]
    · rw [if_neg hk]
      by_cases hk' : k' = k0
      · subst hk'
        simp only [List.lookup, beq_self_eq_true]
      · have hbeq : (k' == k0) = false := by
          simp only [beq_eq_false_iff_ne, ne_eq]
          exact hk'
        simp only [List.lookup, hbeq, ih]

theorem lookup_filter_out {β : Type} (l : List (String × β)) (k : String) :
    List.lookup k (l.filter fun p => p.1 != k) = none := by
  induction l with
  | nil => rfl
  | cons p rest ih =>
    obtain ⟨k0, v⟩ := p
    by_cases hk : k0 = k
    · subst hk
      simp [List.filter, ih]
    · have hne : (k0 != k) = true := by simpa [bne_iff_ne] using hk
      have hbeq : (k == k0) = false := by
        simp [beq_iff_eq]
        exact fun h => hk h.symm
      simp [List.filter, hne, List.lookup, hbeq, ih]

theorem get_document_save (d : DocumentDatabase) (doc_id : String) :
    get_document (save_database d) doc_id = get_document d doc_id := rfl

theorem lookup_dfSet (df : List (String × DocRecord)) (k : String)
    (f : DocRecord → DocRecord) :
    List.lookup k (dfSet df k f) = (List.lookup k df).map f :=
  lookup_map_update df k f

theorem lookup_dfSet_ne (df : List (String × DocRecord)) (k k' : String)
    (f : DocRecord → DocRecord) (h : k' ≠ k) :
    List.lookup k' (dfSet df k f) = List.lookup k' df :=
  lookup_map_update_ne df k k' f h

theorem get_document_update (d : DocumentDatabase) (now : Nat)
    (doc_id status : String) (em : Option String) :
    get_document (update_document_status d now doc_id status em) doc_id
      = (get_document d doc_id).map (statusUpdateRow now status em) := by
  unfold update_document_status get_document
  by_cases hs : (List.lookup doc_id d.df).isSome = true
  · rw [if_pos hs]
    exact lookup_dfSet d.df doc_id (statusUpdateRow now status em)
  · rw [if_neg hs]
    cases hl : List.lookup doc_id d.df with
    | none => rfl
    | some r => rw [hl] at hs; simp at hs

theorem get_document_update_ne (d : DocumentDatabase) (now : Nat)
    (doc_id status k : String) (em : Option String) (h : k ≠ doc_id) :
    get_document (update_document_status d now doc_id status em) k
      = get_document d k := by
  unfold update_document_status get_document
  by_cases hs : (List.lookup doc_id d.df).isSome = true
  · rw [if_pos hs]
    exact lookup_dfSet_ne d.df doc_id k (statusUpdateRow now status em) h
  · rw [if_neg hs]

theorem pmFind_pmSet (pm : ProgressManager) (doc_id : String)
    (e : ProgressEntry) : pmFind (pmSet pm doc_id e) doc_id = some e := by
  unfold pmSet pmFind
  cases h : List.lookup doc_id pm with
  | none =>
    simp [h, List.lookup]
  | some e0 =>
    simp only [h, Option.isSome_some, if_true]
    have := lookup_map_update (f := fun _ => e) pm doc_id
    simpa [h] using this

theorem ocr_msg_ne_empty (e : String) :
    ("OCR processing failed: " ++ e) ≠ "" := by
  intro hc
  have h := congrArg String.length hc
  rw [String.length_append] at h
  simp at h
  have h23 : ("OCR processing failed: " : String).length = 23 := rfl
  omega

theorem isEmpty_false_of_ne (m : String) (h : m ≠ "") : m.isEmpty = false := by
  rw [Bool.eq_false_iff, Ne, String.isEmpty_iff]
  exact h

theorem matchP1_nil : matchP1 [] = none := rfl

theorem matchP2_nil : matchP2 [] = none := rfl

theorem matchP3_nil : matchP3 [] = none := rfl

theorem get_progress_emitProgress (pm : ProgressManager) (now : Nat)
    (doc_id : String) (g1 ds : List Char) (info : Option (List Char)) :
    ((get_progress (emitProgress pm now doc_id g1 ds info).1 doc_id).map
      ProgressEntry.task = some (some (String.mk (pyStrip g1)))) ∧
    ((get_progress (emitProgress pm now doc_id g1 ds info).1 doc_id).map
      ProgressEntry.percentage = some (some (digitsToNat ds))) ∧
    ((get_progress (emitProgress pm now doc_id g1 ds info).1 doc_id).map
      ProgressEntry.progress_info = some (info.map String.mk)) := by
  unfold emitProgress update_progress get_progress
  refine ⟨?_, ?_, ?_⟩ <;> (rw [pmFind_pmSet]; rfl)

/-! ## Fixtures for concrete witnesses and counterexamples -/

/-- A disk with no durable files yet. -/
def emptyDisk : Disk := { primary := none, backup := none }

/-- A representative registry row, as `add_document` lays paths out. -/
def sampleRec : DocRecord :=
  { original_filename := "a.pdf"
    upload_date := 1
    status := "uploaded"
    upload_path := "uploads/a.pdf"
    output_folder := "outputs/d1"
    raw_copy_path := "outputs/d1/a.pdf"
    html_path := "outputs/d1/a.html"
    extracted_info_path := "outputs/d1/extracted_info.json"
    metadata_path := "outputs/d1/metadata.json"
    extracted_info := none
    error_message := none
    last_modified := 1 }

/-- A registry with no documents. -/
def dbNoDocs : DocumentDatabase := { df := [], disk := emptyDisk }

/-- A document currently in `error` with a recorded message. -/
def recFailed : DocRecord :=
  { sampleRec with status := "error", error_message := some "boom" }

/-- A registry holding `recFailed` under id `d1`. -/
def dbWithFailed : DocumentDatabase :=
  { df := [("d1", recFailed)], disk := emptyDisk }

/-! ## Claim theorems -/

/-- C10: mutating operations on a document id that is absent from the
registry are silent no-ops: `update_document_status` and
`update_extracted_info` return the state unchanged (so in particular no
durable write happens), `delete_document` returns `false` with the state
unchanged, and none of them surfaces a not-found error. -/
theorem unknown_id_mutations_are_noops (d : DocumentDatabase) (now : Nat)
    (doc_id status info : String) (em : Option String)
    (h : d.df.lookup doc_id = none) :
    update_document_status d now doc_id status em = d ∧
    update_extracted_info d now doc_id info = d ∧
    delete_document d doc_id = (d, false) := by
  refine ⟨?_, ?_, ?_⟩ <;>
    simp [update_document_status, update_extracted_info, delete_document, h]

/-- Witness for C10: the three no-op results at the empty registry and
id `d1`. -/
theorem unknown_id_mutations_are_noops_witness :
    update_document_status dbNoDocs 5 "d1" "parsed" none = dbNoDocs ∧
    update_extracted_info dbNoDocs 5 "d1" "x" = dbNoDocs ∧
    delete_document dbNoDocs "d1" = (dbNoDocs, false) :=
  unknown_id_mutations_are_noops dbNoDocs 5 "d1" "parsed" "x" none rfl

/-- C3 counterexample: moving a document from `error` to `parsed` with no
message supplied leaves the old `error_message` in place (the claim says
it is cleared), and a message supplied on a transition into the non-error
status `uploaded` is stored anyway (the claim says it only has effect on
transitions into `error`). -/
theorem error_message_not_cleared_counterexample :
    ((get_document (update_document_status dbWithFailed 5 "d1" "parsed" none) "d1").map
        DocRecord.error_message = some (some "boom")) ∧
    ((get_document (update_document_status dbWithFailed 5 "d1" "parsed" none) "d1").map
        DocRecord.status = some "parsed") ∧
    ((get_document (update_document_status dbWithFailed 5 "d1" "uploaded" (some "oops")) "d1").map
        DocRecord.error_message = some (some "oops")) := by
  decide

/-- C3 amended: `update_document_status` never clears `error_message` —
when no message is supplied the prior message survives any status
transition, including away from `error`; a supplied non-empty message is
stored whatever the target status is; and `status` and `last_modified`
are updated on every call on a present id. -/
theorem update_status_error_message_discipline (d : DocumentDatabase)
    (now : Nat) (doc_id status m : String) (r : DocRecord)
    (h : get_document d doc_id = some r) (hm : m ≠ "") :
    ((get_document (update_document_status d now doc_id status none) doc_id).map
        DocRecord.error_message = some r.error_message) ∧
    ((get_document (update_document_status d now doc_id status (some m)) doc_id).map
        DocRecord.error_message = some (some m)) ∧
    ((get_document (update_document_status d now doc_id status none) doc_id).map
        DocRecord.status = some status) ∧
    ((get_document (update_document_status d now doc_id status none) doc_id).map
        DocRecord.last_modified = some now) := by
  have hm' := isEmpty_false_of_ne m hm
  refine ⟨?_, ?_, ?_, ?_⟩ <;>
    simp [get_document_update, h, statusUpdateRow, hm']

/-- Witness for C3's amended theorem at the concrete `error` document. -/
theorem update_status_error_message_discipline_witness :
    ((get_document (update_document_status dbWithFailed 5 "d1" "parsed" none) "d1").map
        DocRecord.error_message = some recFailed.error_message) ∧
    ((get_document (update_document_status dbWithFailed 5 "d1" "parsed" (some "oops")) "d1").map
        DocRecord.error_message = some (some "oops")) ∧
    ((get_document (update_document_status dbWithFailed 5 "d1" "parsed" none) "d1").map
        DocRecord.status = some "parsed") ∧
    ((get_document (update_document_status dbWithFailed 5 "d1" "parsed" none) "d1").map
        DocRecord.last_modified = some 5) :=
  update_status_error_message_discipline dbWithFailed 5 "d1" "parsed" "oops"
    recFailed rfl (by decide)

/-- C8: saving the registry and reloading it returns the records
field-for-field; the previous primary snapshot is preserved as the
backup before the overwrite; a corrupt/unreadable primary makes the load
fall back to the backup's records; and the tracker, which is not
persisted, is empty after a restart, so any document's transient
progress state is absent. -/
theorem persistence_roundtrip_backup_fallback (d : DocumentDatabase)
    (doc_id : String) :
    (load_database (save_database d).disk = d.df) ∧
    ((save_database d).disk.backup =
      if d.disk.primary.isSome then d.disk.primary else d.disk.backup) ∧
    (∀ recs : List (String × DocRecord),
      load_database { primary := some .corrupt, backup := some (.ok recs) } = recs) ∧
    (get_progress emptyPM doc_id = none) := by
  refine ⟨rfl, ?_, fun _ => rfl, rfl⟩
  cases h : d.disk.primary <;> simp [save_database, h]

/-- C9: `update_progress` stamps `status = 'processing'` on the entry no
matter what was there before — in particular after a terminal
`set_status` to `error` — and it leaves the recorded `error_message`
untouched, so the tracker can simultaneously report `processing` and a
non-null error message. -/
theorem update_progress_forces_processing (pm : ProgressManager)
    (now1 now2 : Nat) (doc_id task m : String) (pct : Nat)
    (info : Option String) (hm : m.isEmpty = false) :
    (∀ pm0 : ProgressManager,
      (get_progress (update_progress pm0 now2 doc_id task pct info) doc_id).map
        ProgressEntry.status = some (some "processing")) ∧
    (get_progress
        (update_progress (set_status pm now1 doc_id "error" (some m)) now2
          doc_id task pct info) doc_id
      = some { task := some task, percentage := some pct, progress_info := info,
               last_updated := some now2, status := some "processing",
               error_message := some m }) := by
  constructor
  · intro pm0
    unfold update_progress get_progress
    rw [pmFind_pmSet]
    rfl
  · have h1 : pmFind (set_status pm now1 doc_id "error" (some m)) doc_id
        = some { ((pmFind pm doc_id).getD emptyEntry) with
                 status := some "error", last_updated := some now1,
                 error_message := some m } := by
      unfold set_status
      rw [pmFind_pmSet]
      simp [hm]
    unfold update_progress get_progress
    rw [pmFind_pmSet, h1]
    simp

/-- C1: for a present document, `parse_document` answers "already being
parsed" when the registry status is `parsing` and "already parsed" when
it is `parsed`, in both cases leaving the whole state untouched and
dispatching nothing; a background job is dispatched only from the
remaining statuses `uploaded` and `error`, and whenever one is
dispatched the record has been transitioned to `parsing` and exactly one
job was added — so a repeat call finds `parsing` and cannot start a
duplicate job. -/
theorem start_parse_at_most_one_job (st : AppState) (now : Nat)
    (doc_id : String) (doc : DocRecord)
    (hdoc : get_document st.db doc_id = some doc)
    (hvalid : doc.status = "uploaded" ∨ doc.status = "parsing" ∨
              doc.status = "parsed" ∨ doc.status = "error") :
    (doc.status = "parsing" →
      parse_document st now doc_id = (st, .alreadyInProgress doc_id)) ∧
    (doc.status = "parsed" →
      parse_document st now doc_id = (st, .alreadyParsed doc_id)) ∧
    ((parse_document st now doc_id).1.jobs ≠ st.jobs →
      (doc.status = "uploaded" ∨ doc.status = "error") ∧
      (parse_document st now doc_id).1.jobs = st.jobs ++ [doc_id] ∧
      (get_document (parse_document st now doc_id).1.db doc_id).map
        DocRecord.status = some "parsing") ∧
    ((doc.status = "uploaded" ∨ doc.status = "error") →
      fsExists st.fs doc.raw_copy_path = true →
      (parse_document st now doc_id).2 = .started doc_id ∧
      (parse_document st now doc_id).1.jobs = st.jobs ++ [doc_id] ∧
      (get_document (parse_document st now doc_id).1.db doc_id).map
        DocRecord.status = some "parsing") := by
  by_cases hp : doc.status = "parsing"
  · have hpd : parse_document st now doc_id = (st, .alreadyInProgress doc_id) := by
      simp [parse_document, hdoc, hp]
    refine ⟨fun _ => hpd, fun h2 => absurd (hp.symm.trans h2) (by decide),
      fun hj => ?_, fun hu _ => ?_⟩
    · rw [hpd] at hj
      exact absurd rfl hj
    · rcases hu with hu | hu <;> exact absurd (hp.symm.trans hu) (by decide)
  by_cases hq : doc.status = "parsed"
  · have hpd : parse_document st now doc_id = (st, .alreadyParsed doc_id) := by
      simp [parse_document, hdoc, hp, hq]
    refine ⟨fun h1 => absurd h1 hp, fun _ => hpd, fun hj => ?_, fun hu _ => ?_⟩
    · rw [hpd] at hj
      exact absurd rfl hj
    · rcases hu with hu | hu <;> exact absurd (hq.symm.trans hu) (by decide)
  have hstat : doc.status = "uploaded" ∨ doc.status = "error" := by
    rcases hvalid with h | h | h | h
    · exact Or.inl h
    · exact absurd h hp
    · exact absurd h hq
    · exact Or.inr h
  have hnewstat :
      (get_document (update_document_status st.db now doc_id "parsing" none) doc_id).map
        DocRecord.status = some "parsing" := by
    rw [get_document_update, hdoc]
    rfl
  by_cases hraw : fsExists st.fs doc.raw_copy_path = true
  · have hpd : parse_document st now doc_id =
        ({ st with db := update_document_status st.db now doc_id "parsing" none
                   jobs := st.jobs ++ [doc_id] }, .started doc_id) := by
      simp [parse_document, hdoc, hp, hq, hraw]
    refine ⟨fun h1 => absurd h1 hp, fun h2 => absurd h2 hq,
      fun _ => ⟨hstat, ?_, ?_⟩, fun _ _ => ⟨?_, ?_, ?_⟩⟩
    · rw [hpd]
    · rw [hpd]
      exact hnewstat
    · rw [hpd]
    · rw [hpd]
    · rw [hpd]
      exact hnewstat
  · by_cases hup : fsExists st.fs doc.upload_path = true
    · have hpd : parse_document st now doc_id =
          ({ st with db := update_document_status st.db now doc_id "parsing" none
                     fs := fsCopy st.fs doc.raw_copy_path
                     jobs := st.jobs ++ [doc_id] }, .started doc_id) := by
        simp [parse_document, hdoc, hp, hq, hraw, hup]
      refine ⟨fun h1 => absurd h1 hp, fun h2 => absurd h2 hq,
        fun _ => ⟨hstat, ?_, ?_⟩, fun _ hr => absurd hr hraw⟩
      · rw [hpd]
      · rw [hpd]
        exact hnewstat
    · have hpd : parse_document st now doc_id =
          ({ st with db := update_document_status
                       (update_document_status st.db now doc_id "parsing" none)
                       now doc_id "error" (some "Source file not found") },
           .sourceNotFound) := by
        simp [parse_document, hdoc, hp, hq, hraw, hup]
      refine ⟨fun h1 => absurd h1 hp, fun h2 => absurd h2 hq,
        fun hj => ?_, fun _ hr => absurd hr hraw⟩
      rw [hpd] at hj
      exact absurd rfl hj

/-- An application state with the one `uploaded` document `d1` whose raw
copy is on disk, no tracker entries, and no dispatched jobs. -/
def stUploaded : AppState :=
  { db := { df := [("d1", sampleRec)], disk := emptyDisk }
    pm := emptyPM
    fs := { files := ["outputs/d1/a.pdf"], dirs := [], failing := [] }
    jobs := [] }

/-- Witness for C1: the positive dispatch branch of the theorem at the
concrete `uploaded` document whose raw copy exists — the call starts the
job, appends exactly one pending background task, and leaves the record
in `parsing`. -/
theorem start_parse_at_most_one_job_witness :
    (parse_document stUploaded 7 "d1").2 = .started "d1" ∧
    (parse_document stUploaded 7 "d1").1.jobs = stUploaded.jobs ++ ["d1"] ∧
    (get_document (parse_document stUploaded 7 "d1").1.db "d1").map
      DocRecord.status = some "parsing" :=
  (start_parse_at_most_one_job stUploaded 7 "d1" sampleRec (by decide)
    (Or.inl (by decide))).2.2.2 (Or.inl (by decide)) (by decide)

/-- C4: when the converter invocation raises, or the converter succeeds
but writing the output raises, the job's exception handler transitions
the registry record to `error` with the non-empty descriptive message
"OCR processing failed: <exception>" and sets the tracker status to
`error` carrying that same message. -/
theorem ocr_failure_reconciles_error (db : DocumentDatabase)
    (pm : ProgressManager) (now : Nat) (doc_id : String) (r : DocRecord)
    (hdoc : get_document db doc_id = some r) :
    (∀ (e : String) (writeErr : Option String),
      ("OCR processing failed: " ++ e) ≠ "" ∧
      get_document (run_ocr_thread db pm now doc_id (.error e) writeErr).1 doc_id
        = some { r with
                 status := "error"
                 error_message := some ("OCR processing failed: " ++ e)
                 last_modified := now } ∧
      ((get_progress (run_ocr_thread db pm now doc_id (.error e) writeErr).2 doc_id).map
        ProgressEntry.status = some (some "error")) ∧
      ((get_progress (run_ocr_thread db pm now doc_id (.error e) writeErr).2 doc_id).map
        ProgressEntry.error_message
          = some (some ("OCR processing failed: " ++ e)))) ∧
    (∀ t e : String,
      ("OCR processing failed: " ++ e) ≠ "" ∧
      get_document (run_ocr_thread db pm now doc_id (.ok t) (some e)).1 doc_id
        = some { r with
                 status := "error"
                 error_message := some ("OCR processing failed: " ++ e)
                 last_modified := now } ∧
      ((get_progress (run_ocr_thread db pm now doc_id (.ok t) (some e)).2 doc_id).map
        ProgressEntry.status = some (some "error")) ∧
      ((get_progress (run_ocr_thread db pm now doc_id (.ok t) (some e)).2 doc_id).map
        ProgressEntry.error_message
          = some (some ("OCR processing failed: " ++ e)))) := by
  have main : ∀ e : String,
      ((get_progress (set_status pm now doc_id "error"
          (some ("OCR processing failed: " ++ e))) doc_id).map
        ProgressEntry.status = some (some "error")) ∧
      ((get_progress (set_status pm now doc_id "error"
          (some ("OCR processing failed: " ++ e))) doc_id).map
        ProgressEntry.error_message
          = some (some ("OCR processing failed: " ++ e))) := by
    intro e
    have hie := isEmpty_false_of_ne _ (ocr_msg_ne_empty e)
    have h1 : pmFind (set_status pm now doc_id "error"
          (some ("OCR processing failed: " ++ e))) doc_id
        = some { ((pmFind pm doc_id).getD emptyEntry) with
                 status := some "error", last_updated := some now,
                 error_message := some ("OCR processing failed: " ++ e) } := by
      unfold set_status
      rw [pmFind_pmSet]
      simp [hie]
    constructor
    · show (pmFind (set_status pm now doc_id "error" _) doc_id).map _ = _
      rw [h1]
      rfl
    · show (pmFind (set_status pm now doc_id "error" _) doc_id).map _ = _
      rw [h1]
      rfl
  have maindb : ∀ e : String,
      get_document (update_document_status db now doc_id "error"
          (some ("OCR processing failed: " ++ e))) doc_id
        = some { r with
                 status := "error"
                 error_message := some ("OCR processing failed: " ++ e)
                 last_modified := now } := by
    intro e
    have hie := isEmpty_false_of_ne _ (ocr_msg_ne_empty e)
    rw [get_document_update, hdoc]
    simp [statusUpdateRow, hie]
  constructor
  · intro e writeErr
    exact ⟨ocr_msg_ne_empty e, maindb e, (main e).1, (main e).2⟩
  · intro t e
    exact ⟨ocr_msg_ne_empty e, maindb e, (main e).1, (main e).2⟩

/-- Witness for C4: a concrete converter exception on the concrete
one-document registry, and a concrete output-write failure after a
successful conversion. -/
theorem ocr_failure_reconciles_error_witness :
    (("OCR processing failed: " ++ "conv boom") ≠ "" ∧
     get_document
        (run_ocr_thread dbWithFailed emptyPM 9 "d1" (.error "conv boom") none).1 "d1"
       = some { recFailed with
                status := "error"
                error_message := some ("OCR processing failed: " ++ "conv boom")
                last_modified := 9 } ∧
     ((get_progress
        (run_ocr_thread dbWithFailed emptyPM 9 "d1" (.error "conv boom") none).2 "d1").map
       ProgressEntry.status = some (some "error")) ∧
     ((get_progress
        (run_ocr_thread dbWithFailed emptyPM 9 "d1" (.error "conv boom") none).2 "d1").map
       ProgressEntry.error_message
         = some (some ("OCR processing failed: " ++ "conv boom")))) ∧
    (("OCR processing failed: " ++ "disk full") ≠ "" ∧
     get_document
        (run_ocr_thread dbWithFailed emptyPM 9 "d1" (.ok "text") (some "disk full")).1 "d1"
       = some { recFailed with
                status := "error"
                error_message := some ("OCR processing failed: " ++ "disk full")
                last_modified := 9 } ∧
     ((get_progress
        (run_ocr_thread dbWithFailed emptyPM 9 "d1" (.ok "text") (some "disk full")).2 "d1").map
       ProgressEntry.status = some (some "error")) ∧
     ((get_progress
        (run_ocr_thread dbWithFailed emptyPM 9 "d1" (.ok "text") (some "disk full")).2 "d1").map
       ProgressEntry.error_message
         = some (some ("OCR processing failed: " ++ "disk full")))) :=
  ⟨(ocr_failure_reconciles_error dbWithFailed emptyPM 9 "d1" recFailed
      (by decide)).1 "conv boom" none,
   (ocr_failure_reconciles_error dbWithFailed emptyPM 9 "d1" recFailed
      (by decide)).2 "text" "disk full"⟩

/-- Witness for C9 at the empty tracker and message "bad": after a
terminal `error` status, one `update_progress` call leaves a record that
is simultaneously `processing` and carrying the error message. -/
theorem update_progress_forces_processing_witness :
    get_progress
        (update_progress (set_status emptyPM 8 "d1" "error" (some "bad")) 9
          "d1" "Recognizing Text" 45 none) "d1"
      = some { task := some "Recognizing Text", percentage := some 45,
               progress_info := none, last_updated := some 9,
               status := some "processing", error_message := some "bad" } :=
  (update_progress_forces_processing emptyPM 8 9 "d1" "Recognizing Text" "bad"
    45 none (by decide)).2

/-- Result-set extension discipline for C6: everything the loop added to
a partition of `res2` beyond `res1` has a key different from `d`, and the
`total_requested` count is untouched. -/
def addsOnlyOthers (d : String) (res1 res2 : BatchResults) : Prop :=
  (∀ p, p ∈ res2.processed → p ∈ res1.processed ∨ p.1 ≠ d) ∧
  (∀ x, x ∈ res2.already_parsed → x ∈ res1.already_parsed ∨ x ≠ d) ∧
  (∀ p, p ∈ res2.failed → p ∈ res1.failed ∨ p.1 ≠ d) ∧
  (∀ x, x ∈ res2.not_found → x ∈ res1.not_found ∨ x ≠ d) ∧
  res2.total_requested = res1.total_requested

theorem addsOnlyOthers_refl (d : String) (res : BatchResults) :
    addsOnlyOthers d res res :=
  ⟨fun _ h => Or.inl h, fun _ h => Or.inl h, fun _ h => Or.inl h,
   fun _ h => Or.inl h, rfl⟩

theorem addsOnlyOthers_trans (d : String) (r1 r2 r3 : BatchResults)
    (h12 : addsOnlyOthers d r1 r2) (h23 : addsOnlyOthers d r2 r3) :
    addsOnlyOthers d r1 r3 := by
  obtain ⟨a12, b12, c12, e12, t12⟩ := h12
  obtain ⟨a23, b23, c23, e23, t23⟩ := h23
  refine ⟨fun p hp => ?_, fun x hx => ?_, fun p hp => ?_, fun x hx => ?_,
    t23.trans t12⟩
  · rcases a23 p hp with h | h
    · exact a12 p h
    · exact Or.inr h
  · rcases b23 x hx with h | h
    · exact b12 x h
    · exact Or.inr h
  · rcases c23 p hp with h | h
    · exact c12 p h
    · exact Or.inr h
  · rcases e23 x hx with h | h
    · exact e12 x h
    · exact Or.inr h

theorem addsOnlyOthers_processed (d : String) (res : BatchResults)
    (q : String × String) (hq : q.1 ≠ d) :
    addsOnlyOthers d res { res with processed := res.processed ++ [q] } := by
  refine ⟨fun p hp => ?_, fun x hx => Or.inl hx, fun p hp => Or.inl hp,
    fun x hx => Or.inl hx, rfl⟩
  rcases List.mem_append.1 hp with h | h
  · exact Or.inl h
  · rw [List.mem_singleton] at h
    subst h
    exact Or.inr hq

theorem addsOnlyOthers_already (d : String) (res : BatchResults)
    (x0 : String) (hx0 : x0 ≠ d) :
    addsOnlyOthers d res
      { res with already_parsed := res.already_parsed ++ [x0] } := by
  refine ⟨fun p hp => Or.inl hp, fun x hx => ?_, fun p hp => Or.inl hp,
    fun x hx => Or.inl hx, rfl⟩
  rcases List.mem_append.1 hx with h | h
  · exact Or.inl h
  · rw [List.mem_singleton] at h
    subst h
    exact Or.inr hx0

theorem addsOnlyOthers_failed (d : String) (res : BatchResults)
    (q : String × String) (hq : q.1 ≠ d) :
    addsOnlyOthers d res { res with failed := res.failed ++ [q] } := by
  refine ⟨fun p hp => Or.inl hp, fun x hx => Or.inl hx, fun p hp => ?_,
    fun x hx => Or.inl hx, rfl⟩
  rcases List.mem_append.1 hp with h | h
  · exact Or.inl h
  · rw [List.mem_singleton] at h
    subst h
    exact Or.inr hq

theorem addsOnlyOthers_notfound (d : String) (res : BatchResults)
    (x0 : String) (hx0 : x0 ≠ d) :
    addsOnlyOthers d res { res with not_found := res.not_found ++ [x0] } := by
  refine ⟨fun p hp => Or.inl hp, fun x hx => Or.inl hx, fun p hp => Or.inl hp,
    fun x hx => ?_, rfl⟩
  rcases List.mem_append.1 hx with h | h
  · exact Or.inl h
  · rw [List.mem_singleton] at h
    subst h
    exact Or.inr hx0

theorem batchStep_preserves (now : Nat) (st : AppState) (res : BatchResults)
    (i d : String) (doc : DocRecord)
    (hd : get_document st.db d = some doc) (hs : doc.status = "parsing") :
    get_document (batchStep now st res i).1.db d = some doc ∧
    addsOnlyOthers d res (batchStep now st res i).2 := by
  by_cases hid : i = d
  · subst hid
    have hnep : doc.status ≠ "parsed" := by rw [hs]; decide
    have hb : batchStep now st res i = (st, res) := by
      simp [batchStep, hd, hnep, hs]
    rw [hb]
    exact ⟨hd, addsOnlyOthers_refl _ res⟩
  · have hdi : d ≠ i := fun h => hid h.symm
    cases hgi : get_document st.db i with
    | none =>
      have hb : batchStep now st res i
          = (st, { res with not_found := res.not_found ++ [i] }) := by
        simp [batchStep, hgi]
      rw [hb]
      exact ⟨hd, addsOnlyOthers_notfound d res i hid⟩
    | some doci =>
      by_cases hps : doci.status = "parsed"
      · have hb : batchStep now st res i
            = (st, { res with already_parsed := res.already_parsed ++ [i] }) := by
          simp [batchStep, hgi, hps]
        rw [hb]
        exact ⟨hd, addsOnlyOthers_already d res i hid⟩
      by_cases hpg : doci.status = "parsing"
      · have hb : batchStep now st res i = (st, res) := by
          simp [batchStep, hgi, hps, hpg]
        rw [hb]
        exact ⟨hd, addsOnlyOthers_refl d res⟩
      have hdupd :
          get_document (update_document_status st.db now i "parsing" none) d
            = some doc := by
        rw [get_document_update_ne st.db now i "parsing" d none hdi]
        exact hd
      by_cases hraw : fsExists st.fs doci.raw_copy_path = true
      · have hb : batchStep now st res i
            = (process_pdf_to_markdown
                 { st with db := update_document_status st.db now i "parsing" none }
                 now i,
               { res with processed := res.processed ++ [(i, "parsed")] }) := by
          simp [batchStep, hgi, hps, hpg, hraw]
        rw [hb]
        exact ⟨hdupd, addsOnlyOthers_processed d res (i, "parsed") hid⟩
      by_cases hup : fsExists st.fs doci.upload_path = true
      · have hb : batchStep now st res i
            = (process_pdf_to_markdown
                 { st with db := update_document_status st.db now i "parsing" none
                           fs := fsCopy st.fs doci.raw_copy_path }
                 now i,
               { res with processed := res.processed ++ [(i, "parsed")] }) := by
          simp [batchStep, hgi, hps, hpg, hraw, hup]
        rw [hb]
        exact ⟨hdupd, addsOnlyOthers_processed d res (i, "parsed") hid⟩
      · have hb : batchStep now st res i
            = ({ st with
                   db := update_document_status
                           (update_document_status st.db now i "parsing" none)
                           now i "error" (some "Source file not found") },
               { res with failed := res.failed ++ [(i, "Source file not found")] }) := by
          simp [batchStep, hgi, hps, hpg, hraw, hup]
        rw [hb]
        refine ⟨?_, addsOnlyOthers_failed d res (i, "Source file not found") hid⟩
        show get_document (update_document_status
            (update_document_status st.db now i "parsing" none)
            now i "error" (some "Source file not found")) d = some doc
        rw [get_document_update_ne _ now i "error" d _ hdi]
        exact hdupd

theorem batchLoop_preserves (now : Nat) (d : String) (doc : DocRecord)
    (hs : doc.status = "parsing") :
    ∀ (ids : List String) (st : AppState) (res : BatchResults),
      get_document st.db d = some doc →
      get_document (batchLoop now st res ids).1.db d = some doc ∧
      addsOnlyOthers d res (batchLoop now st res ids).2 := by
  intro ids
  induction ids with
  | nil => exact fun st res hd => ⟨hd, addsOnlyOthers_refl d res⟩
  | cons i rest ih =>
    intro st res hd
    obtain ⟨hdb, hao⟩ := batchStep_preserves now st res i d doc hd hs
    obtain ⟨hdb2, hao2⟩ := ih (batchStep now st res i).1 (batchStep now st res i).2 hdb
    exact ⟨hdb2, addsOnlyOthers_trans d res _ _ hao hao2⟩

/-- C5: `parse_progress_line` tries the three patterns in order from
most specific (full bar with ratio and bracketed timing) to least
specific (task plus percentage only) and commits to the first that
matches: a pattern-1 match is used even if patterns 2/3 would also
match; pattern 2 is used only when pattern 1 failed; pattern 3 only when
both failed, and then the tracker update carries `progress_info = none`
while a full-pattern match populates task, percentage and progress_info
alike; a line matching no pattern leaves the tracker untouched. -/
theorem progress_patterns_first_match (pm : ProgressManager) (now : Nat)
    (doc_id : String) (line : String) :
    (∀ g1 ds g3, matchP1 (pyStrip line.toList) = some (g1, ds, g3) →
      parse_progress_line pm now doc_id line
        = emitProgress pm now doc_id g1 ds (some g3) ∧
      ((get_progress (parse_progress_line pm now doc_id line).1 doc_id).map
        ProgressEntry.task = some (some (String.mk (pyStrip g1)))) ∧
      ((get_progress (parse_progress_line pm now doc_id line).1 doc_id).map
        ProgressEntry.percentage = some (some (digitsToNat ds))) ∧
      ((get_progress (parse_progress_line pm now doc_id line).1 doc_id).map
        ProgressEntry.progress_info = some (some (String.mk g3)))) ∧
    (∀ g1 ds g3, matchP1 (pyStrip line.toList) = none →
      matchP2 (pyStrip line.toList) = some (g1, ds, g3) →
      parse_progress_line pm now doc_id line
        = emitProgress pm now doc_id g1 ds (some g3)) ∧
    (∀ g1 ds, matchP1 (pyStrip line.toList) = none →
      matchP2 (pyStrip line.toList) = none →
      matchP3 (pyStrip line.toList) = some (g1, ds) →
      (parse_progress_line pm now doc_id line).2
        = some ⟨String.mk (pyStrip g1), digitsToNat ds, none⟩ ∧
      ((get_progress (parse_progress_line pm now doc_id line).1 doc_id).map
        ProgressEntry.task = some (some (String.mk (pyStrip g1)))) ∧
      ((get_progress (parse_progress_line pm now doc_id line).1 doc_id).map
        ProgressEntry.percentage = some (some (digitsToNat ds))) ∧
      ((get_progress (parse_progress_line pm now doc_id line).1 doc_id).map
        ProgressEntry.progress_info = some none)) ∧
    (matchP1 (pyStrip line.toList) = none →
      matchP2 (pyStrip line.toList) = none →
      matchP3 (pyStrip line.toList) = none →
      parse_progress_line pm now doc_id line = (pm, none)) := by
  refine ⟨?_, ?_, ?_, ?_⟩
  · intro g1 ds g3 h1
    have hne : (pyStrip line.toList).isEmpty = false := by
      cases hl : pyStrip line.toList with
      | nil => rw [hl, matchP1_nil] at h1; exact Option.noConfusion h1
      | cons c r => rfl
    have hpl : parse_progress_line pm now doc_id line
        = emitProgress pm now doc_id g1 ds (some g3) := by
      simp only [parse_progress_line, hne, Bool.false_eq_true, if_false, h1]
    have he := get_progress_emitProgress pm now doc_id g1 ds (some g3)
    rw [hpl]
    exact ⟨rfl, he.1, he.2.1, he.2.2⟩
  · intro g1 ds g3 h1 h2
    have hne : (pyStrip line.toList).isEmpty = false := by
      cases hl : pyStrip line.toList with
      | nil => rw [hl, matchP2_nil] at h2; exact Option.noConfusion h2
      | cons c r => rfl
    simp only [parse_progress_line, hne, Bool.false_eq_true, if_false, h1, h2]
  · intro g1 ds h1 h2 h3
    have hne : (pyStrip line.toList).isEmpty = false := by
      cases hl : pyStrip line.toList with
      | nil => rw [hl, matchP3_nil] at h3; exact Option.noConfusion h3
      | cons c r => rfl
    have hpl : parse_progress_line pm now doc_id line
        = emitProgress pm now doc_id g1 ds none := by
      simp only [parse_progress_line, hne, Bool.false_eq_true, if_false, h1, h2, h3]
    have he := get_progress_emitProgress pm now doc_id g1 ds none
    rw [hpl]
    exact ⟨rfl, he.1, he.2.1, he.2.2⟩
  · intro h1 h2 h3
    cases hl : (pyStrip line.toList).isEmpty with
    | true => simp only [parse_progress_line, hl, if_true]
    | false => simp only [parse_progress_line, hl, Bool.false_eq_true, if_false, h1, h2, h3]

/-- Witness for C5: pattern 1 on a genuine full tqdm progress line (all
three tracker fields populate), and pattern 3 on a minimal
task-and-percentage line (the tracker reflects a null progress_info),
both obtained through the theorem. -/
theorem progress_patterns_first_match_witness :
    (parse_progress_line emptyPM 3 "d1"
        "Recognizing Text: 45%|####      | 12/40 [00:15<00:35, 1.2it/s]"
      = emitProgress emptyPM 3 "d1" "Recognizing Text".toList "45".toList
          (some "12/40".toList) ∧
     ((get_progress (parse_progress_line emptyPM 3 "d1"
        "Recognizing Text: 45%|####      | 12/40 [00:15<00:35, 1.2it/s]").1 "d1").map
       ProgressEntry.task
         = some (some (String.mk (pyStrip "Recognizing Text".toList)))) ∧
     ((get_progress (parse_progress_line emptyPM 3 "d1"
        "Recognizing Text: 45%|####      | 12/40 [00:15<00:35, 1.2it/s]").1 "d1").map
       ProgressEntry.percentage = some (some (digitsToNat "45".toList))) ∧
     ((get_progress (parse_progress_line emptyPM 3 "d1"
        "Recognizing Text: 45%|####      | 12/40 [00:15<00:35, 1.2it/s]").1 "d1").map
       ProgressEntry.progress_info
         = some (some (String.mk "12/40".toList)))) ∧
    ((parse_progress_line emptyPM 3 "d1" "Loading models: 30%").2
      = some ⟨String.mk (pyStrip "Loading models".toList),
              digitsToNat "30".toList, none⟩ ∧
     ((get_progress (parse_progress_line emptyPM 3 "d1" "Loading models: 30%").1 "d1").map
       ProgressEntry.task
         = some (some (String.mk (pyStrip "Loading models".toList)))) ∧
     ((get_progress (parse_progress_line emptyPM 3 "d1" "Loading models: 30%").1 "d1").map
       ProgressEntry.percentage = some (some (digitsToNat "30".toList))) ∧
     ((get_progress (parse_progress_line emptyPM 3 "d1" "Loading models: 30%").1 "d1").map
       ProgressEntry.progress_info = some none)) :=
  ⟨(progress_patterns_first_match emptyPM 3 "d1"
      "Recognizing Text: 45%|####      | 12/40 [00:15<00:35, 1.2it/s]").1
      "Recognizing Text".toList "45".toList "12/40".toList (by decide),
   (progress_patterns_first_match emptyPM 3 "d1" "Loading models: 30%").2.2.1
      "Loading models".toList "30".toList (by decide) (by decide) (by decide)⟩

/-- C6: a requested document whose registry status is `parsing` at the
start of a batch call is silently skipped: it appears in none of the
`processed`, `already_parsed`, `failed`, `not_found` partitions; the
summary counts only `processed` and `already_parsed` entries (so the
skipped document is excluded from the numerator) while the reported
total and the success-rate denominator remain the number of requested
ids (so it is included in the denominator). -/
theorem batch_silently_skips_parsing (st : AppState) (now : Nat)
    (doc_ids : List String) (d : String) (doc : DocRecord)
    (hd : get_document st.db d = some doc) (hs : doc.status = "parsing") :
    (∀ p, p ∈ (parse_multiple_documents st now doc_ids).2.1.processed → p.1 ≠ d) ∧
    d ∉ (parse_multiple_documents st now doc_ids).2.1.already_parsed ∧
    (∀ p, p ∈ (parse_multiple_documents st now doc_ids).2.1.failed → p.1 ≠ d) ∧
    d ∉ (parse_multiple_documents st now doc_ids).2.1.not_found ∧
    (parse_multiple_documents st now doc_ids).2.1.total_requested
      = doc_ids.length ∧
    (parse_multiple_documents st now doc_ids).2.2.total_processed
      = (parse_multiple_documents st now doc_ids).2.1.processed.length
        + (parse_multiple_documents st now doc_ids).2.1.already_parsed.length ∧
    (parse_multiple_documents st now doc_ids).2.2.success_rate
      = (if doc_ids.isEmpty then 0
         else (((parse_multiple_documents st now doc_ids).2.2.total_processed : ℚ)
               / (doc_ids.length : ℚ)) * 100) := by
  have hres : (parse_multiple_documents st now doc_ids).2.1
      = (batchLoop now st ⟨doc_ids.length, [], [], [], []⟩ doc_ids).2 := rfl
  obtain ⟨hdb, ha, hb2, hc, he, ht⟩ :=
    batchLoop_preserves now d doc hs doc_ids st ⟨doc_ids.length, [], [], [], []⟩ hd
  refine ⟨?_, ?_, ?_, ?_, ?_, rfl, rfl⟩
  · intro p hp
    rw [hres] at hp
    rcases ha p hp with h | h
    · exact absurd h (List.not_mem_nil p)
    · exact h
  · intro hmem
    rw [hres] at hmem
    rcases hb2 d hmem with h | h
    · exact absurd h (List.not_mem_nil d)
    · exact h rfl
  · intro p hp
    rw [hres] at hp
    rcases hc p hp with h | h
    · exact absurd h (List.not_mem_nil p)
    · exact h
  · intro hmem
    rw [hres] at hmem
    rcases he d hmem with h | h
    · exact absurd h (List.not_mem_nil d)
    · exact h rfl
  · rw [hres]
    exact ht

/-- A document stuck in `parsing` under id `dp`, plus the `uploaded`
document `d1`, in one registry; `d1`'s raw copy is on disk. -/
def stBatch : AppState :=
  { db := { df := [("dp", { sampleRec with status := "parsing" }),
                   ("d1", sampleRec)],
            disk := emptyDisk }
    pm := emptyPM
    fs := { files := ["outputs/d1/a.pdf"], dirs := [], failing := [] }
    jobs := [] }

/-- Witness for C6: the batch `["dp", "d1", "dx"]` with `dp` already
`parsing` — the denominator stays 3 while the summary counts only the
processed and already-parsed partitions. -/
theorem batch_silently_skips_parsing_witness :
    (parse_multiple_documents stBatch 7 ["dp", "d1", "dx"]).2.1.total_requested
      = (["dp", "d1", "dx"] : List String).length ∧
    (parse_multiple_documents stBatch 7 ["dp", "d1", "dx"]).2.2.total_processed
      = (parse_multiple_documents stBatch 7 ["dp", "d1", "dx"]).2.1.processed.length
        + (parse_multiple_documents stBatch 7 ["dp", "d1", "dx"]).2.1.already_parsed.length ∧
    (parse_multiple_documents stBatch 7 ["dp", "d1", "dx"]).2.2.success_rate
      = (if (["dp", "d1", "dx"] : List String).isEmpty then 0
         else (((parse_multiple_documents stBatch 7 ["dp", "d1", "dx"]).2.2.total_processed : ℚ)
               / ((["dp", "d1", "dx"] : List String).length : ℚ)) * 100) :=
  ⟨(batch_silently_skips_parsing stBatch 7 ["dp", "d1", "dx"] "dp"
      { sampleRec with status := "parsing" } (by decide) (by decide)).2.2.2.2.1,
   (batch_silently_skips_parsing stBatch 7 ["dp", "d1", "dx"] "dp"
      { sampleRec with status := "parsing" } (by decide) (by decide)).2.2.2.2.2.1,
   (batch_silently_skips_parsing stBatch 7 ["dp", "d1", "dx"] "dp"
      { sampleRec with status := "parsing" } (by decide) (by decide)).2.2.2.2.2.2⟩

/-- C2 (refuted; the spec's claim is the intended behavior): the batch
endpoint calls the *threaded* `process_pdf_to_markdown`, which dispatches
a daemon OCR thread and returns at once, yet the batch records the
document under `processed` with the literal status string "parsed" and
computes its summary from that;
when the batch call returns, the registry record of the "processed"
document still has status `parsing` (the conversion is a pending
background job), contradicting the claim that every processed document
has completed conversion with registry status `parsed`. -/
theorem batch_is_not_synchronous :
    (parse_multiple_documents stUploaded 7 ["d1"]).2.1.processed
      = [("d1", "parsed")] ∧
    (get_document (parse_multiple_documents stUploaded 7 ["d1"]).1.db "d1").map
      DocRecord.status = some "parsing" ∧
    (parse_multiple_documents stUploaded 7 ["d1"]).1.jobs = ["d1"] ∧
    ((get_progress (parse_multiple_documents stUploaded 7 ["d1"]).1.pm "d1").map
      ProgressEntry.status = some (some "processing")) := by
  decide

/-- Document `d1` present with its upload file on disk but with removal
of that file raising an OSError (e.g. a permission failure). -/
def stDeleteFailing : AppState :=
  { db := { df := [("d1", sampleRec)], disk := emptyDisk }
    pm := emptyPM
    fs := { files := ["uploads/a.pdf"], dirs := ["outputs/d1"],
            failing := ["uploads/a.pdf"] }
    jobs := [] }

/-- C7 counterexample: when artifact cleanup raises, the exception
propagates to the endpoint's outer handler, the call fails with a 500,
and the registry entry is *not* removed — a subsequent `get` still finds
the document, refuting "registry removal happens regardless of whether
cleanup fully succeeded". -/
theorem delete_cleanup_failure_keeps_entry :
    (delete_document_endpoint stDeleteFailing "d1").2 = .serverError ∧
    get_document (delete_document_endpoint stDeleteFailing "d1").1.db "d1"
      = some sampleRec := by
  decide

/-- C7 amended: deletion removes the registry entry — so a subsequent
`get` returns not-found — whenever the artifact cleanup attempts raise
no exception; artifacts that are already absent are skipped harmlessly
(cleanup need not delete anything for the record to go); but a cleanup
operation that raises aborts the endpoint with an error and leaves the
registry entry in place. -/
theorem delete_removes_entry_when_cleanup_ok (st : AppState)
    (doc_id : String) (doc : DocRecord)
    (hd : get_document st.db doc_id = some doc)
    (hok : (deleteFilesLoop st.fs [doc.upload_path, doc.output_folder]).2 = true) :
    (delete_document_endpoint st doc_id).2 = .deleted doc_id ∧
    get_document (delete_document_endpoint st doc_id).1.db doc_id = none := by
  have hdel : delete_document st.db doc_id
      = (save_database { st.db with
          df := st.db.df.filter fun p => p.1 != doc_id }, true) := by
    unfold delete_document
    rw [show (List.lookup doc_id st.db.df).isSome = true by
      rw [show List.lookup doc_id st.db.df = some doc from hd]; rfl]
    simp
  have hnone : get_document
      (save_database { st.db with
        df := st.db.df.filter fun p => p.1 != doc_id }) doc_id = none := by
    rw [get_document_save]
    exact lookup_filter_out st.db.df doc_id
  have hb : delete_document_endpoint st doc_id
      = ({ st with db := (delete_document st.db doc_id).1,
                   fs := (deleteFilesLoop st.fs [doc.upload_path, doc.output_folder]).1 },
         .deleted doc_id) := by
    unfold delete_document_endpoint
    rw [hd]
    simp only [hok, hdel, if_true]
  rw [hb]
  refine ⟨rfl, ?_⟩
  show get_document (delete_document st.db doc_id).1 doc_id = none
  rw [hdel]
  exact hnone

/-- Document `d1` present with both artifact paths absent from disk. -/
def stDeleteClean : AppState :=
  { db := { df := [("d1", sampleRec)], disk := emptyDisk }
    pm := emptyPM
    fs := { files := [], dirs := [], failing := [] }
    jobs := [] }

/-- Witness for C7's amended theorem: deleting `d1` whose artifacts are
already gone succeeds and makes `get` return not-found. -/
theorem delete_removes_entry_when_cleanup_ok_witness :
    (delete_document_endpoint stDeleteClean "d1").2 = .deleted "d1" ∧
    get_document (delete_document_endpoint stDeleteClean "d1").1.db "d1" = none :=
  delete_removes_entry_when_cleanup_ok stDeleteClean "d1" sampleRec
    (by decide) (by decide)

end Scheduling